import Mathlib

/-
  Verification development for the aoitelegram interpreter core:
  the function registry (AoiBase.addFunction / ensureFunction / editFunction /
  removeFunction / getFunction / hasFunction), the dispatch entry point
  (AoiBase.evaluateCommand), and the error reporter (MessageError /
  AoiStopping in src/classes/AoiError.ts).

  The registry `availableFunctions` is a telegramsjs `Collection`
  (a JavaScript `Map`): keys are unique, insertion order is kept,
  `set` replaces in place, `delete` removes the entry and reports
  whether it was present.  We embed it as an association list with
  exactly those operations.
-/

namespace Aoi

/-- Modelled from the spec: the running library version, imported by
AoiBase from the package entry point `../index`, which is not among the
provided sources; the package manifest (src/package.json) declares
`"version": "0.8.2"`, a string. -/
def version : String := "0.8.2"

/-- Function descriptor (`DataFunction` of AoiTyping): a name, an optional
minimum library version (a string), and an opaque callback identity used
only to tell descriptors apart. -/
structure DataFunction where
  name : String
  version : Option String := none
  callbackId : Nat := 0
deriving Repr, DecidableEq

/-- JavaScript `String.prototype.toLowerCase` on the ASCII names used here:
map `Char.toLower` over the characters.  (The library calls `.toLowerCase()`
on function names; this structural definition lets proofs and witnesses
evaluate it.) -/
def jsToLower (s : String) : String := ⟨s.data.map Char.toLower⟩

/-- JavaScript `<` on two strings: lexicographic comparison of the
character codes (JS compares UTF-16 code units; on the version strings in
question these coincide with the code points). -/
def charListLt : List Char → List Char → Bool
  | [], [] => false
  | [], _ :: _ => true
  | _ :: _, [] => false
  | a :: as, b :: bs =>
    if a.toNat < b.toNat then true
    else if b.toNat < a.toNat then false
    else charListLt as bs

/-- JavaScript string comparison `a < b`. -/
def jsStrLt (a b : String) : Bool := charListLt a.data b.data

/-- The registry `availableFunctions`: a JavaScript `Map` from (lower-cased)
name to descriptor, embedded as an insertion-ordered association list. -/
abbrev Registry := List (String × DataFunction)

/-- JavaScript `Map.has`. -/
def mapHas (r : Registry) (k : String) : Bool :=
  match r with
  | [] => false
  | p :: rest => if p.1 == k then true else mapHas rest k

/-- JavaScript `Map.get` (`undefined` becomes `none`). -/
def mapGet (r : Registry) (k : String) : Option DataFunction :=
  match r with
  | [] => none
  | p :: rest => if p.1 == k then some p.2 else mapGet rest k

/-- JavaScript `Map.set`: replace in place if the key is present, append
otherwise. -/
def mapSet (r : Registry) (k : String) (v : DataFunction) : Registry :=
  match r with
  | [] => [(k, v)]
  | p :: rest => if p.1 == k then (k, v) :: rest else p :: mapSet rest k v

/-- JavaScript `Map.delete`: remove the entry if present; the Bool reports
whether an entry was removed. -/
def mapDelete (r : Registry) (k : String) : Registry × Bool :=
  match r with
  | [] => ([], false)
  | p :: rest =>
    if p.1 == k then (rest, true)
    else
      let res := mapDelete rest k
      (p :: res.1, res.2)

/-- `AoijsError` as constructed in src/classes/AoiError.ts: a category
name and a description. -/
structure AoijsError where
  name : Option String
  description : String
deriving Repr, DecidableEq

/-- Error thrown by addFunction / ensureFunction when the descriptor has no
usable name (`you did not specify the 'name' parameter`). -/
def missingNameError : AoijsError :=
  ⟨some "customFunction", "you did not specify the 'name' parameter"⟩

/-- The DuplicateFunction condition raised by addFunction. -/
def duplicateFunctionError (functionName : String) : AoijsError :=
  ⟨some "customFunction",
    "the function \"" ++ functionName ++
      "\" already exists; to overwrite it, use the <AoiClient>.editFunction method!"⟩

/-- The string interpolated for `${func?.version || 0}` in the
VersionMismatch message. -/
def versionString (v : Option String) : String :=
  match v with
  | none => "0"
  | some s => if s = "" then "0" else s

/-- The VersionMismatch condition raised by addFunction / ensureFunction. -/
def versionMismatchError (functionName : String) (v : Option String) : AoijsError :=
  ⟨some "customFunction",
    "to load this function " ++ functionName ++
      ", the library version must be equal to or greater than " ++ versionString v⟩

/-- The UnknownFunction condition raised by editFunction. -/
def unknownFunctionEditError (functionName : String) : AoijsError :=
  ⟨some "customFunction",
    "the function \"" ++ functionName ++
      "\" does not exist; you can only modify functions that have been added recently"⟩

/-- The UnknownFunction condition raised by removeFunction. -/
def unknownFunctionRemoveError (functionName : String) : AoijsError :=
  ⟨some "customFunction",
    "the function \"" ++ functionName ++ "\" does not exist or has already been deleted"⟩

/-- The error raised by editFunction / removeFunction on an empty list. -/
def missingParameterError : AoijsError :=
  ⟨some "parameter", "you did not specify the 'name' parameter"⟩

/-- The version gate `(func?.version || 0) > version`: with no declared
version (or the falsy empty string) the JavaScript comparison is
`0 > "0.8.2"`, which is false; a declared version string compares
lexicographically against the running version. -/
def versionCheckFails (v : Option String) : Bool :=
  match v with
  | none => false
  | some s => if s = "" then false else jsStrLt version s

/-- AoiBase.addFunction, single-descriptor path: reject a falsy lower-cased
name, reject duplicates, reject a too-new version, otherwise store under
the lower-cased name.  The pair carries the registry as left by the call
(the throws happen before the mutation) and the thrown error if any. -/
def addFunction (r : Registry) (f : DataFunction) : Registry × Option AoijsError :=
  let functionName := jsToLower f.name
  if functionName = "" then (r, some missingNameError)
  else if mapHas r functionName then (r, some (duplicateFunctionError functionName))
  else if versionCheckFails f.version then
    (r, some (versionMismatchError functionName f.version))
  else (mapSet r functionName f, none)

/-- AoiBase.ensureFunction, single-descriptor path: like addFunction but
with no duplicate check — an unconditional upsert behind the name and
version gates. -/
def ensureFunction (r : Registry) (f : DataFunction) : Registry × Option AoijsError :=
  let functionName := jsToLower f.name
  if functionName = "" then (r, some missingNameError)
  else if versionCheckFails f.version then
    (r, some (versionMismatchError functionName f.version))
  else (mapSet r functionName f, none)

/-- Loop body of AoiBase.editFunction: each descriptor must already be
registered under its lower-cased name; the first unregistered one aborts
the loop, keeping the edits already applied. -/
def editFunctionGo (r : Registry) : List DataFunction → Registry × Option AoijsError
  | [] => (r, none)
  | f :: rest =>
    let lowerCaseName := jsToLower f.name
    if mapHas r lowerCaseName then editFunctionGo (mapSet r lowerCaseName f) rest
    else (r, some (unknownFunctionEditError lowerCaseName))

/-- AoiBase.editFunction on a list of descriptors. -/
def editFunctionList (r : Registry) (fs : List DataFunction) : Registry × Option AoijsError :=
  if fs.length = 0 then (r, some missingParameterError)
  else editFunctionGo r fs

/-- AoiBase.editFunction on a single descriptor (the non-array call wraps
it in a one-element list). -/
def editFunction (r : Registry) (f : DataFunction) : Registry × Option AoijsError :=
  editFunctionList r [f]

/-- Loop body of AoiBase.removeFunction: delete each lower-cased name in
order; the first name whose delete reports `false` aborts the loop with an
error, keeping the deletions already performed. -/
def removeFunctionGo (r : Registry) : List String → Registry × Option AoijsError
  | [] => (r, none)
  | n :: rest =>
    let lowerCaseName := jsToLower n
    let res := mapDelete r lowerCaseName
    if res.2 then removeFunctionGo res.1 rest
    else (res.1, some (unknownFunctionRemoveError lowerCaseName))

/-- AoiBase.removeFunction on a list of names. -/
def removeFunction (r : Registry) (names : List String) : Registry × Option AoijsError :=
  if names.length < 1 then (r, some missingParameterError)
  else removeFunctionGo r names

/-- AoiBase.getFunction, single-name path: a plain `Collection.get` of the
name exactly as supplied — the query is NOT lower-cased. -/
def getFunction (r : Registry) (functionName : String) : Option DataFunction :=
  mapGet r functionName

/-- AoiBase.hasFunction, single-name path: a plain `Collection.has` of the
name exactly as supplied — the query is NOT lower-cased. -/
def hasFunction (r : Registry) (functionName : String) : Bool :=
  mapHas r functionName

/-- Outcome of `taskCompleter.completeTask()` (TaskCompleter is not among the
provided sources, so the task is abstracted by its outcome): it either
resolves to a string or throws / rejects with an unexpected fault. -/
inductive TaskOutcome where
  | ok (value : String)
  | fault (message : String)
deriving Repr, DecidableEq

/-- Observable outcome of one call to AoiBase.evaluateCommand:
what propagates to the caller as a thrown error (if anything), the value
returned normally (`none` models `undefined`), and what was written to the
console log. -/
structure EvalOutcome where
  thrown : Option String
  returned : Option String
  logged : List String
deriving Repr, DecidableEq

/-- AoiBase.evaluateCommand: the whole body sits in
`try { ... return await taskCompleter.completeTask() } catch (err) { console.log(err) }`,
so a task fault is caught and logged and the method falls through to a
normal `undefined` return; nothing is ever rethrown to the caller. -/
def evaluateCommand (task : TaskOutcome) : EvalOutcome :=
  match task with
  | .ok v => ⟨none, some v, []⟩
  | .fault e => ⟨none, none, [e]⟩

/-- Host-configuration and context state read by MessageError:
`telegram.sendMessageError` (user-visible text errors enabled),
`telegram.functionError` (function-error side channel enabled),
whether the event context has a `send` channel, and the shared function
registry. -/
structure TelegramState where
  sendMessageError : Bool
  functionError : Bool
  hasSend : Bool
  registry : Registry
deriving Repr, DecidableEq

/-- An error thrown out of a MessageError operation: the Stop Signal
(`AoiStopping`), a `ConsoleError`, or an `AoijsError` escaping from the
registry calls made on the side-channel path. -/
inductive ThrownError where
  | aoiStopping (func : String)
  | consoleError (func : String) (details : String) (line : Option Nat)
  | aoijs (e : AoijsError)
deriving Repr, DecidableEq

/-- Whether a thrown error is the Stop Signal. -/
def ThrownError.isStopSignal : ThrownError → Bool
  | .aoiStopping _ => true
  | _ => false

/-- Observable side effects of a MessageError operation, in order. -/
inductive Effect where
  | sent (text : String)
  | registered (functionName : String)
  | emitted (eventName : String)
  | removed (functionName : String)
deriving Repr, DecidableEq

/-- Result of a MessageError operation: the registry as left by the call,
the ordered effect log, the thrown error (if any) and the value returned
normally (if any). -/
structure MessageErrorResult where
  registry : Registry
  log : List Effect
  thrown : Option ThrownError
  returned : Option String
deriving Repr, DecidableEq

/-- String interpolation `${line}` for the optional line number
(`undefined` when absent). -/
def lineToString : Option Nat → String
  | none => "undefined"
  | some n => toString n

/-- The inline diagnostic template of MessageError.createMessageError:
`Error[${func}]: <code>${details}\n{ \nline : ${line}, \ncommand : ${func} \n}</code>`. -/
def createMessageErrorText (func details : String) (line : Option Nat) : String :=
  "Error[" ++ func ++ "]: " ++ "<code>" ++ details ++ "\n" ++ "\x7b \nline : "
    ++ lineToString line ++ ", \ncommand : " ++ func ++ " \n\x7d" ++ "</code>"

/-- The temporary `$handleError` descriptor registered on the side-channel
path (it has a callback and no declared version). -/
def handleErrorFunction : DataFunction := { name := "$handleError" }

/-- MessageError.createMessageError: when text errors are disabled and the
function-error side channel is enabled, register `$handleError` via
addFunction, emit the `functionError` event, remove `$handleError`, and
throw the Stop Signal; otherwise, when the context has no `send` channel,
throw a ConsoleError; otherwise return the formatted inline diagnostic. -/
def createMessageError (st : TelegramState) (func details : String)
    (line : Option Nat) : MessageErrorResult :=
  if !st.sendMessageError && st.functionError then
    let add := addFunction st.registry handleErrorFunction
    match add.2 with
    | some e => ⟨add.1, [], some (.aoijs e), none⟩
    | none =>
      let rem := removeFunction add.1 ["$handleError"]
      match rem.2 with
      | some e =>
        ⟨rem.1, [.registered "$handleError", .emitted "functionError"],
          some (.aoijs e), none⟩
      | none =>
        ⟨rem.1,
          [.registered "$handleError", .emitted "functionError",
            .removed "$handleError"],
          some (.aoiStopping "emit functionError"), none⟩
  else if !st.hasSend then
    ⟨st.registry, [], some (.consoleError func details line), none⟩
  else
    ⟨st.registry, [], none, some (createMessageErrorText func details line)⟩

/-- Common shape of the five error-signaling operations: build the text via
createMessageError (propagating anything it throws), send the text, then
throw `AoiStopping(tag)`. -/
def messageErrorOp (st : TelegramState) (tag func details : String)
    (line : Option Nat) : MessageErrorResult :=
  let res := createMessageError st func details line
  match res.returned with
  | none => res
  | some text =>
    ⟨res.registry, res.log ++ [.sent text], some (.aoiStopping tag), none⟩

/-- MessageError.errorArgs. -/
def errorArgs (st : TelegramState) (amount parameterCount : Nat) (func : String)
    (line : Option Nat) : MessageErrorResult :=
  messageErrorOp st "errorArgs" func
    ("Expected " ++ toString amount ++ " arguments but got " ++ toString parameterCount)
    line

/-- MessageError.errorVar (no line number is passed). -/
def errorVar (st : TelegramState) (nameVar func : String) : MessageErrorResult :=
  messageErrorOp st "errorVar" func
    ("Invalid variable " ++ nameVar ++ " not found") none

/-- MessageError.errorTable (no line number is passed). -/
def errorTable (st : TelegramState) (table func : String) : MessageErrorResult :=
  messageErrorOp st "errorTable" func
    ("Invalid table " ++ table ++ " not found") none

/-- MessageError.errorArray (no line number is passed). -/
def errorArray (st : TelegramState) (nameVar func : String) : MessageErrorResult :=
  messageErrorOp st "errorArray" func
    ("The specified variable " ++ nameVar ++ " does not exist for the array") none

/-- MessageError.customError. -/
def customError (st : TelegramState) (description func : String)
    (line : Option Nat) : MessageErrorResult :=
  messageErrorOp st "customError" func description line

/-- The keys of a registry, in insertion order. -/
def keysOf (r : Registry) : List String := r.map Prod.fst

theorem mapHas_iff_mem_keys (r : Registry) (k : String) :
    mapHas r k = true ↔ k ∈ keysOf r := by
  induction r with
  | nil => simp [mapHas, keysOf]
  | cons p rest ih =>
    by_cases hb : p.1 = k
    · simp [mapHas, keysOf, hb]
    · simp only [mapHas, keysOf, List.map_cons, List.mem_cons]
      simp [beq_iff_eq, hb, ih, keysOf, Ne.symm hb]

theorem mapHas_mapSet_self (r : Registry) (k : String) (v : DataFunction) :
    mapHas (mapSet r k v) k = true := by
  induction r with
  | nil => simp [mapSet, mapHas]
  | cons p rest ih =>
    by_cases hb : p.1 = k
    · simp [mapSet, mapHas, hb]
    · simp [mapSet, mapHas, beq_iff_eq, hb, ih]

theorem mapGet_mapSet_self (r : Registry) (k : String) (v : DataFunction) :
    mapGet (mapSet r k v) k = some v := by
  induction r with
  | nil => simp [mapSet, mapGet]
  | cons p rest ih =>
    by_cases hb : p.1 = k
    · simp [mapSet, mapGet, hb]
    · simp [mapSet, mapGet, beq_iff_eq, hb, ih]

theorem mapGet_of_not_has (r : Registry) (k : String) (h : mapHas r k = false) :
    mapGet r k = none := by
  induction r with
  | nil => simp [mapGet]
  | cons p rest ih =>
    by_cases hb : p.1 = k
    · simp [mapHas, hb] at h
    · simp [mapHas, beq_iff_eq, hb] at h
      simp [mapGet, beq_iff_eq, hb, ih h]

theorem mapDelete_snd_of_has (r : Registry) (k : String) (h : mapHas r k = true) :
    (mapDelete r k).2 = true := by
  induction r with
  | nil => simp [mapHas] at h
  | cons p rest ih =>
    by_cases hb : p.1 = k
    · simp [mapDelete, hb]
    · simp [mapHas, beq_iff_eq, hb] at h
      simp [mapDelete, beq_iff_eq, hb, ih h]

theorem mapDelete_of_not_has (r : Registry) (k : String) (h : mapHas r k = false) :
    mapDelete r k = (r, false) := by
  induction r with
  | nil => simp [mapDelete]
  | cons p rest ih =>
    by_cases hb : p.1 = k
    · simp [mapHas, hb] at h
    · simp [mapHas, beq_iff_eq, hb] at h
      simp [mapDelete, beq_iff_eq, hb, ih h]

theorem mapHas_mapDelete_of_not_has (r : Registry) (k q : String)
    (h : mapHas r k = false) : mapHas (mapDelete r q).1 k = false := by
  induction r with
  | nil => simp [mapDelete, mapHas]
  | cons p rest ih =>
    by_cases hb : p.1 = k
    · simp [mapHas, hb] at h
    · simp [mapHas, beq_iff_eq, hb] at h
      by_cases hq : p.1 = q
      · simpa [mapDelete, hq] using h
      · simp [mapDelete, mapHas, beq_iff_eq, hb, hq, ih h]

theorem mapDelete_mapSet_fresh (r : Registry) (k : String) (v : DataFunction)
    (h : mapHas r k = false) : mapDelete (mapSet r k v) k = (r, true) := by
  induction r with
  | nil => simp [mapSet, mapDelete]
  | cons p rest ih =>
    by_cases hb : p.1 = k
    · simp [mapHas, hb] at h
    · simp [mapHas, beq_iff_eq, hb] at h
      simp [mapSet, mapDelete, beq_iff_eq, hb, ih h]

theorem mapHas_mapDelete_self_of_nodup (r : Registry) (k : String)
    (h : (keysOf r).Nodup) : mapHas (mapDelete r k).1 k = false := by
  induction r with
  | nil => simp [mapDelete, mapHas]
  | cons p rest ih =>
    simp only [keysOf, List.map_cons, List.nodup_cons] at h
    by_cases hb : p.1 = k
    · have : mapHas rest k = false := by
        by_contra hc
        have := (mapHas_iff_mem_keys rest k).1 (by revert hc; cases mapHas rest k <;> simp)
        exact h.1 (hb ▸ this)
      simpa [mapDelete, hb] using this
    · simp [mapDelete, mapHas, beq_iff_eq, hb, ih h.2]

theorem keysOf_mapDelete_sublist (r : Registry) (k : String) :
    (keysOf (mapDelete r k).1).Sublist (keysOf r) := by
  induction r with
  | nil => simp [mapDelete, keysOf]
  | cons p rest ih =>
    by_cases hb : p.1 = k
    · simp only [mapDelete, hb, beq_self_eq_true, if_true]
      exact (List.sublist_cons_self _ _)
    · simp only [mapDelete, beq_iff_eq, hb, if_false, keysOf, List.map_cons]
      exact List.Sublist.cons₂ _ ih

theorem nodup_keys_mapDelete (r : Registry) (k : String)
    (h : (keysOf r).Nodup) : (keysOf (mapDelete r k).1).Nodup :=
  (keysOf_mapDelete_sublist r k).nodup h

theorem mapHas_mapDelete_of_ne (r : Registry) (k q : String)
    (h : mapHas r k = true) (hne : k ≠ q) : mapHas (mapDelete r q).1 k = true := by
  induction r with
  | nil => simp [mapHas] at h
  | cons p rest ih =>
    by_cases hb : p.1 = k
    · have hq : ¬ p.1 = q := by rw [hb]; exact hne
      simp [mapDelete, mapHas, beq_iff_eq, hb, hq, hne]
    · simp only [mapHas, beq_iff_eq, hb] at h
      by_cases hq : p.1 = q
      · simpa [mapDelete, hq] using h
      · simp [mapDelete, mapHas, beq_iff_eq, hb, hq, ih h]

theorem mapHas_removeFunctionGo_of_not_has (r : Registry) (names : List String)
    (k : String) (h : mapHas r k = false) :
    mapHas (removeFunctionGo r names).1 k = false := by
  induction names generalizing r with
  | nil => simpa [removeFunctionGo] using h
  | cons n rest ih =>
    simp only [removeFunctionGo]
    by_cases hd : (mapDelete r (jsToLower n)).2 = true
    · simp only [hd, if_true]
      exact ih _ (mapHas_mapDelete_of_not_has r k (jsToLower n) h)
    · simp only [hd]
      simp only [Bool.not_eq_true] at hd
      simp [hd, mapHas_mapDelete_of_not_has r k (jsToLower n) h]

theorem mapHas_of_mapGet_some (r : Registry) (k : String) (f : DataFunction)
    (h : mapGet r k = some f) : mapHas r k = true := by
  induction r with
  | nil => simp [mapGet] at h
  | cons p rest ih =>
    by_cases hb : p.1 = k
    · simp [mapHas, hb]
    · simp [mapGet, beq_iff_eq, hb] at h
      simp [mapHas, beq_iff_eq, hb, ih h]

theorem strAppendAssoc (a b c : String) : a ++ b ++ c = a ++ (b ++ c) := by
  rcases a with ⟨a⟩; rcases b with ⟨b⟩; rcases c with ⟨c⟩
  show String.mk ((a ++ b) ++ c) = String.mk (a ++ (b ++ c))
  rw [List.append_assoc]

theorem versionCheckFails_iff (v : Option String) :
    versionCheckFails v = true ↔ ∃ s, v = some s ∧ jsStrLt version s = true := by
  cases v with
  | none => simp [versionCheckFails]
  | some s =>
    by_cases hs : s = ""
    · subst hs
      simp only [versionCheckFails, if_true, Option.some.injEq]
      constructor
      · intro h; exact absurd h (by decide)
      · rintro ⟨t, rfl, h⟩; exact absurd h (by decide)
    · simp [versionCheckFails, hs]

/-- Sample descriptor with a mixed-case name, used by concrete witnesses. -/
def fooMixed : DataFunction := { name := "Foo" }

/-- Sample descriptor registered under the key "foo". -/
def fooPlain : DataFunction := { name := "foo", callbackId := 1 }

/-- Sample descriptor registered under the key "bar". -/
def barPlain : DataFunction := { name := "bar", callbackId := 2 }

/-- Claim C1: if the lower-cased name is already a key of the registry,
addFunction fails with the DuplicateFunction AoijsError (naming the
function and pointing to editFunction) and the registry is unchanged; if
the lower-cased name is fresh and the version check passes, addFunction
stores the descriptor under the lower-cased name. -/
theorem addFunction_duplicate_guard (r : Registry) (f : DataFunction)
    (hname : jsToLower f.name ≠ "") :
    (mapHas r (jsToLower f.name) = true →
      addFunction r f = (r, some (duplicateFunctionError (jsToLower f.name)))) ∧
    (mapHas r (jsToLower f.name) = false → versionCheckFails f.version = false →
      addFunction r f = (mapSet r (jsToLower f.name) f, none) ∧
        mapGet (addFunction r f).1 (jsToLower f.name) = some f) := by
  constructor
  · intro hdup
    simp [addFunction, hname, hdup]
  · intro hfresh hver
    have h1 : addFunction r f = (mapSet r (jsToLower f.name) f, none) := by
      simp [addFunction, hname, hfresh, hver]
    exact ⟨h1, by rw [h1]; exact mapGet_mapSet_self _ _ _⟩

/-- Witness for C1: adding "Foo" over a registry already holding the key
"foo" fails with the DuplicateFunction error and keeps the registry; adding
"Foo" to the empty registry stores it under "foo". -/
theorem addFunction_duplicate_guard_witness :
    (jsToLower fooMixed.name ≠ "" ∧ mapHas [("foo", fooPlain)] (jsToLower fooMixed.name) = true ∧
      addFunction [("foo", fooPlain)] fooMixed
        = ([("foo", fooPlain)], some (duplicateFunctionError (jsToLower fooMixed.name)))) ∧
    (addFunction [] fooMixed = (mapSet [] (jsToLower fooMixed.name) fooMixed, none) ∧
      mapGet (addFunction [] fooMixed).1 (jsToLower fooMixed.name) = some fooMixed) :=
  ⟨⟨by decide, by decide,
      (addFunction_duplicate_guard [("foo", fooPlain)] fooMixed (by decide)).1 (by decide)⟩,
    (addFunction_duplicate_guard [] fooMixed (by decide)).2 (by decide) (by decide)⟩

/-- Claim C2 counterexample: the descriptor named "Foo" is stored under the
key "foo", but querying getFunction / hasFunction with the original
mixed-case spelling "Foo" yields none / false — the lookups are NOT
case-insensitive (only the exact lower-cased key succeeds). -/
theorem getFunction_case_sensitive_cex :
    (addFunction [] fooMixed).1 = [("foo", fooMixed)] ∧
    getFunction [("foo", fooMixed)] "Foo" = none ∧
    hasFunction [("foo", fooMixed)] "Foo" = false ∧
    getFunction [("foo", fooMixed)] "foo" = some fooMixed ∧
    hasFunction [("foo", fooMixed)] "foo" = true := by
  decide

/-- Claim C2 (amended): getFunction and hasFunction are pure lookups keyed
by the exact string supplied (case-sensitive): a descriptor stored under a
key is returned, and reported present, exactly for that key; a query string
that is not a stored key — e.g. a differently-cased spelling of a stored
name — yields none / false.  (Both are read-only: in this embedding they
take the registry and return only the lookup result.) -/
theorem getFunction_hasFunction_exact_key (r : Registry) (k q : String)
    (f : DataFunction) (hstored : mapGet r k = some f) :
    getFunction r k = some f ∧ hasFunction r k = true ∧
    (mapHas r q = false → getFunction r q = none ∧ hasFunction r q = false) :=
  ⟨hstored, mapHas_of_mapGet_some r k f hstored,
    fun hq => ⟨mapGet_of_not_has r q hq, hq⟩⟩

/-- Witness for the amended C2: with "Foo" stored under "foo", the exact
key "foo" succeeds and the original spelling "Foo" misses. -/
theorem getFunction_hasFunction_exact_key_witness :
    getFunction [("foo", fooMixed)] "foo" = some fooMixed ∧
    hasFunction [("foo", fooMixed)] "foo" = true ∧
    (mapHas [("foo", fooMixed)] "Foo" = false →
      getFunction [("foo", fooMixed)] "Foo" = none ∧
      hasFunction [("foo", fooMixed)] "Foo" = false) :=
  getFunction_hasFunction_exact_key [("foo", fooMixed)] "foo" "Foo" fooMixed (by decide)

/-- Claim C4: editFunction on a descriptor whose lower-cased name is not
registered fails with the UnknownFunction AoijsError and the registry is
unchanged; on a registered lower-cased name it succeeds and afterwards the
lookup of that key returns exactly the new descriptor (a complete
replacement). -/
theorem editFunction_unknown_or_replace (r : Registry) (f : DataFunction) :
    (mapHas r (jsToLower f.name) = false →
      editFunction r f = (r, some (unknownFunctionEditError (jsToLower f.name)))) ∧
    (mapHas r (jsToLower f.name) = true →
      editFunction r f = (mapSet r (jsToLower f.name) f, none) ∧
        mapGet (editFunction r f).1 (jsToLower f.name) = some f) := by
  constructor
  · intro h
    simp [editFunction, editFunctionList, editFunctionGo, h]
  · intro h
    have h1 : editFunction r f = (mapSet r (jsToLower f.name) f, none) := by
      simp [editFunction, editFunctionList, editFunctionGo, h]
    exact ⟨h1, by rw [h1]; exact mapGet_mapSet_self _ _ _⟩

/-- Witness for C4: editing "Foo" in an empty registry fails with the
UnknownFunction error; editing "Foo" where "foo" is registered replaces the
stored descriptor completely. -/
theorem editFunction_unknown_or_replace_witness :
    (editFunction [] fooMixed = ([], some (unknownFunctionEditError (jsToLower fooMixed.name)))) ∧
    (editFunction [("foo", fooPlain)] fooMixed
        = (mapSet [("foo", fooPlain)] (jsToLower fooMixed.name) fooMixed, none) ∧
      mapGet (editFunction [("foo", fooPlain)] fooMixed).1 (jsToLower fooMixed.name)
        = some fooMixed) :=
  ⟨(editFunction_unknown_or_replace [] fooMixed).1 (by decide),
    (editFunction_unknown_or_replace [("foo", fooPlain)] fooMixed).2 (by decide)⟩

/-- Claim C5: for a descriptor whose lower-cased name is not yet registered
(and is non-empty), addFunction fails with the VersionMismatch AoijsError
exactly when the descriptor declares a version greater (in JavaScript's
string comparison) than the running library version; it registers the
descriptor otherwise, and a descriptor with no declared version always
passes the version check and is registered. -/
theorem addFunction_version_gate (r : Registry) (f : DataFunction)
    (hname : jsToLower f.name ≠ "") (hfresh : mapHas r (jsToLower f.name) = false) :
    (addFunction r f = (r, some (versionMismatchError (jsToLower f.name) f.version)) ↔
      ∃ s, f.version = some s ∧ jsStrLt version s = true) ∧
    ((¬ ∃ s, f.version = some s ∧ jsStrLt version s = true) →
      addFunction r f = (mapSet r (jsToLower f.name) f, none)) ∧
    (f.version = none → addFunction r f = (mapSet r (jsToLower f.name) f, none)) := by
  have hiff := versionCheckFails_iff f.version
  refine ⟨⟨?_, ?_⟩, ?_, ?_⟩
  · intro heq
    by_cases hv : versionCheckFails f.version = true
    · exact hiff.1 hv
    · rw [Bool.not_eq_true] at hv
      simp [addFunction, hname, hfresh, hv] at heq
  · intro hex
    have hv := hiff.2 hex
    simp [addFunction, hname, hfresh, hv]
  · intro hex
    have hv : versionCheckFails f.version = false := by
      rw [← Bool.not_eq_true]
      intro hc
      exact hex (hiff.1 hc)
    simp [addFunction, hname, hfresh, hv]
  · intro hnone
    have hv : versionCheckFails f.version = false := by simp [versionCheckFails, hnone]
    simp [addFunction, hname, hfresh, hv]

/-- Sample descriptor declaring a version newer than the running library. -/
def tooNew : DataFunction := { name := "new", version := some "1.0.0" }

/-- Witness for C5: a fresh descriptor declaring version "1.0.0" (greater
than the running "0.8.2") is rejected with the VersionMismatch error; a
fresh descriptor with no declared version is registered. -/
theorem addFunction_version_gate_witness :
    (addFunction [] tooNew
        = ([], some (versionMismatchError (jsToLower tooNew.name) tooNew.version))) ∧
    (addFunction [] fooMixed = (mapSet [] (jsToLower fooMixed.name) fooMixed, none)) :=
  ⟨(addFunction_version_gate [] tooNew (by decide) (by decide)).1.2
      ⟨"1.0.0", rfl, by decide⟩,
    (addFunction_version_gate [] fooMixed (by decide) (by decide)).2.2 rfl⟩

/-- Claim C10: ensureFunction is an unconditional upsert: for every
registry and every descriptor with a non-empty (lower-cased) name whose
declared version is not greater than the running library version, it
succeeds — raising no error at all, in particular never a
DuplicateFunction or UnknownFunction condition — and stores the descriptor
under the lower-cased name, overwriting any existing registration of that
key. -/
theorem ensureFunction_upsert (r : Registry) (f : DataFunction)
    (hname : jsToLower f.name ≠ "")
    (hver : ¬ ∃ s, f.version = some s ∧ jsStrLt version s = true) :
    ensureFunction r f = (mapSet r (jsToLower f.name) f, none) ∧
    mapGet (ensureFunction r f).1 (jsToLower f.name) = some f := by
  have hv : versionCheckFails f.version = false := by
    rw [← Bool.not_eq_true]
    intro hc
    exact hver ((versionCheckFails_iff f.version).1 hc)
  have h1 : ensureFunction r f = (mapSet r (jsToLower f.name) f, none) := by
    simp [ensureFunction, hname, hv]
  exact ⟨h1, by rw [h1]; exact mapGet_mapSet_self _ _ _⟩

/-- Witness for C10: ensureFunction over a registry that already holds the
key "foo" silently overwrites it with the new descriptor and raises no
error. -/
theorem ensureFunction_upsert_witness :
    ensureFunction [("foo", fooPlain)] fooMixed
        = (mapSet [("foo", fooPlain)] (jsToLower fooMixed.name) fooMixed, none) ∧
    mapGet (ensureFunction [("foo", fooPlain)] fooMixed).1 (jsToLower fooMixed.name)
        = some fooMixed :=
  ensureFunction_upsert [("foo", fooPlain)] fooMixed (by decide)
    (by rintro ⟨s, hs, hlt⟩; cases hs)

/-- Claim C3 counterexample: a task that throws the unexpected fault
"boom" is NOT propagated by evaluateCommand: the caller observes a normal
`undefined` return (nothing thrown), and the fault is merely written to
the console log. -/
theorem evaluateCommand_swallows_fault_cex :
    (evaluateCommand (.fault "boom")).thrown = none ∧
    (evaluateCommand (.fault "boom")).returned = none ∧
    (evaluateCommand (.fault "boom")).logged = ["boom"] := by
  decide

/-- Claim C3 (amended): evaluateCommand never propagates anything to its
caller: the whole dispatch sits in a try/catch, so an unexpected task fault
is caught, logged to the console, and the caller receives a normal
`undefined` return instead of the error. -/
theorem evaluateCommand_catches_faults (e : String) (task : TaskOutcome) :
    evaluateCommand (.fault e) = ⟨none, none, [e]⟩ ∧
    (evaluateCommand task).thrown = none := by
  refine ⟨rfl, ?_⟩
  cases task <;> rfl

theorem createMessageError_inline (st : TelegramState) (func details : String)
    (line : Option Nat) (hsend : st.hasSend = true)
    (hcfg : st.sendMessageError = true ∨ st.functionError = false) :
    createMessageError st func details line
      = ⟨st.registry, [], none, some (createMessageErrorText func details line)⟩ := by
  have h1 : (!st.sendMessageError && st.functionError) = false := by
    rcases hcfg with h | h <;> simp [h]
  simp [createMessageError, h1, hsend]

theorem createMessageError_no_normal_return (st : TelegramState) (func details : String)
    (line : Option Nat) :
    ((createMessageError st func details line).returned = none ∧
      (createMessageError st func details line).thrown ≠ none) ∨
    ((createMessageError st func details line).thrown = none ∧
      (createMessageError st func details line).returned
        = some (createMessageErrorText func details line)) := by
  simp only [createMessageError]
  split
  · split
    · simp
    · split
      · simp
      · simp
  · split
    · simp
    · simp

theorem messageErrorOp_never_returns (st : TelegramState) (tag func details : String)
    (line : Option Nat) :
    (messageErrorOp st tag func details line).thrown ≠ none ∧
    (messageErrorOp st tag func details line).returned = none := by
  rcases createMessageError_no_normal_return st func details line with ⟨h1, h2⟩ | ⟨h1, h2⟩
  · simp only [messageErrorOp]
    rw [h1]
    exact ⟨h2, h1⟩
  · simp only [messageErrorOp]
    rw [h2]
    simp

theorem messageErrorOp_inline (st : TelegramState) (tag func details : String)
    (line : Option Nat) (hsend : st.hasSend = true)
    (hcfg : st.sendMessageError = true ∨ st.functionError = false) :
    messageErrorOp st tag func details line
      = ⟨st.registry, [.sent (createMessageErrorText func details line)],
          some (.aoiStopping tag), none⟩ := by
  simp [messageErrorOp, createMessageError_inline st func details line hsend hcfg]

/-- The diagnostic details string built by errorArgs. -/
def errorArgsDetails (amount parameterCount : Nat) : String :=
  "Expected " ++ toString amount ++ " arguments but got " ++ toString parameterCount

/-- Claim C6 (amended): none of the five error-signaling operations of
MessageError ever returns normally — each always terminates by throwing.
Whenever the context has a `send` channel and the side-channel condition
does not apply (text errors enabled, or the function-error event disabled),
each operation sends exactly one formatted diagnostic naming the offending
function and raises the Stop Signal (AoiStopping with its own tag).  (The
claim as frozen — that the operations ALWAYS throw AoiStopping — fails when
the context lacks a `send` channel: then a ConsoleError is thrown instead;
see the counterexample.) -/
theorem messageError_ops_abort (st : TelegramState) (amount parameterCount : Nat)
    (nameVar table arrName description func : String) (line : Option Nat) :
    ((errorArgs st amount parameterCount func line).thrown ≠ none ∧
      (errorArgs st amount parameterCount func line).returned = none ∧
      (errorVar st nameVar func).thrown ≠ none ∧
      (errorVar st nameVar func).returned = none ∧
      (errorTable st table func).thrown ≠ none ∧
      (errorTable st table func).returned = none ∧
      (errorArray st arrName func).thrown ≠ none ∧
      (errorArray st arrName func).returned = none ∧
      (customError st description func line).thrown ≠ none ∧
      (customError st description func line).returned = none) ∧
    (st.hasSend = true → st.sendMessageError = true ∨ st.functionError = false →
      (errorArgs st amount parameterCount func line).thrown
          = some (.aoiStopping "errorArgs") ∧
      (errorArgs st amount parameterCount func line).log
          = [.sent (createMessageErrorText func (errorArgsDetails amount parameterCount) line)] ∧
      (errorVar st nameVar func).thrown = some (.aoiStopping "errorVar") ∧
      (errorVar st nameVar func).log
          = [.sent (createMessageErrorText func ("Invalid variable " ++ nameVar ++ " not found") none)] ∧
      (errorTable st table func).thrown = some (.aoiStopping "errorTable") ∧
      (errorTable st table func).log
          = [.sent (createMessageErrorText func ("Invalid table " ++ table ++ " not found") none)] ∧
      (errorArray st arrName func).thrown = some (.aoiStopping "errorArray") ∧
      (errorArray st arrName func).log
          = [.sent (createMessageErrorText func
              ("The specified variable " ++ arrName ++ " does not exist for the array") none)] ∧
      (customError st description func line).thrown = some (.aoiStopping "customError") ∧
      (customError st description func line).log
          = [.sent (createMessageErrorText func description line)]) := by
  constructor
  · refine ⟨(messageErrorOp_never_returns st _ func _ line).1,
      (messageErrorOp_never_returns st _ func _ line).2,
      (messageErrorOp_never_returns st _ func _ none).1,
      (messageErrorOp_never_returns st _ func _ none).2,
      (messageErrorOp_never_returns st _ func _ none).1,
      (messageErrorOp_never_returns st _ func _ none).2,
      (messageErrorOp_never_returns st _ func _ none).1,
      (messageErrorOp_never_returns st _ func _ none).2,
      (messageErrorOp_never_returns st _ func _ line).1,
      (messageErrorOp_never_returns st _ func _ line).2⟩
  · intro hsend hcfg
    refine ⟨?_, ?_, ?_, ?_, ?_, ?_, ?_, ?_, ?_, ?_⟩ <;>
      simp [errorArgs, errorVar, errorTable, errorArray, customError, errorArgsDetails,
        messageErrorOp_inline st _ func _ _ hsend hcfg]

/-- Counterexample for C6: in a context without a `send` channel (and with
the function-error side channel disabled), errorArgs terminates by throwing
a ConsoleError — not the Stop Signal — so the operations do not always
raise AoiStopping. -/
theorem messageError_consoleError_cex :
    (errorArgs ⟨true, false, false, []⟩ 2 1 "f" none).thrown
        = some (.consoleError "f" "Expected 2 arguments but got 1" none) ∧
    ((errorArgs ⟨true, false, false, []⟩ 2 1 "f" none).thrown.map ThrownError.isStopSignal)
        = some false := by
  decide

/-- Witness for the amended C6: in a context with a `send` channel and text
errors enabled, errorArgs sends the formatted diagnostic and throws the
Stop Signal. -/
theorem messageError_ops_abort_witness :
    (errorArgs ⟨true, false, true, []⟩ 2 1 "f" none).thrown
        = some (.aoiStopping "errorArgs") ∧
    (errorArgs ⟨true, false, true, []⟩ 2 1 "f" none).log
        = [.sent (createMessageErrorText "f" (errorArgsDetails 2 1) none)] ∧
    (errorVar ⟨true, false, true, []⟩ "v" "f").thrown = some (.aoiStopping "errorVar") ∧
    (errorTable ⟨true, false, true, []⟩ "t" "f").thrown = some (.aoiStopping "errorTable") ∧
    (errorArray ⟨true, false, true, []⟩ "a" "f").thrown = some (.aoiStopping "errorArray") ∧
    (customError ⟨true, false, true, []⟩ "d" "f" none).thrown
        = some (.aoiStopping "customError") := by
  have h := messageError_ops_abort ⟨true, false, true, []⟩ 2 1 "v" "t" "a" "d" "f" none
  have h2 := h.2 rfl (Or.inl rfl)
  exact ⟨h2.1, h2.2.1, h2.2.2.1, h2.2.2.2.2.1, h2.2.2.2.2.2.2.1, h2.2.2.2.2.2.2.2.2.1⟩

/-- Claim C7: when user-visible text errors are disabled and the
function-error handling is enabled (and the temporary key is free),
createMessageError does not return the diagnostic into the output stream:
it registers the temporary $handleError function, emits the "functionError"
event, removes the function again (leaving the registry as it was), and
aborts the dispatch by throwing the Stop Signal; nothing is sent and
nothing is returned. -/
theorem createMessageError_side_channel (st : TelegramState) (func details : String)
    (line : Option Nat) (hsme : st.sendMessageError = false)
    (hfe : st.functionError = true)
    (hfree : mapHas st.registry "$handleerror" = false) :
    createMessageError st func details line
      = ⟨st.registry,
          [.registered "$handleError", .emitted "functionError", .removed "$handleError"],
          some (.aoiStopping "emit functionError"), none⟩ := by
  have h1 : (!st.sendMessageError && st.functionError) = true := by simp [hsme, hfe]
  have hlow2 : jsToLower "$handleError" = "$handleerror" := by decide
  have hadd : addFunction st.registry handleErrorFunction
      = (mapSet st.registry "$handleerror" handleErrorFunction, none) := by
    simp [addFunction, handleErrorFunction, hlow2, hfree, versionCheckFails]
  have hdel : mapDelete (mapSet st.registry "$handleerror" handleErrorFunction) "$handleerror"
      = (st.registry, true) := mapDelete_mapSet_fresh _ _ _ hfree
  have hrem : removeFunction (mapSet st.registry "$handleerror" handleErrorFunction)
      ["$handleError"] = (st.registry, none) := by
    simp [removeFunction, removeFunctionGo, hlow2, hdel]
  simp [createMessageError, h1, hadd, hrem]

/-- Witness for C7: with text errors disabled, the side channel enabled and
a registry holding only "foo", createMessageError registers, emits and
removes $handleError, restores the registry, sends nothing, returns
nothing, and throws the Stop Signal. -/
theorem createMessageError_side_channel_witness :
    createMessageError ⟨false, true, true, [("foo", fooPlain)]⟩ "f" "d" (some 2)
      = ⟨[("foo", fooPlain)],
          [.registered "$handleError", .emitted "functionError", .removed "$handleError"],
          some (.aoiStopping "emit functionError"), none⟩ :=
  createMessageError_side_channel ⟨false, true, true, [("foo", fooPlain)]⟩ "f" "d" (some 2)
    rfl rfl (by decide)

/-- Counterexample for C8: at func = "f", details = "d", line = 1, the
inline diagnostic is NOT the literal template
`Error[f]: d\n{ line: 1, command: f }` claimed by the spec (the body is
wrapped in `<code>` tags and the brace block spells `line :` with line
breaks). -/
theorem createMessageErrorText_template_cex :
    createMessageErrorText "f" "d" (some 1)
        ≠ "Error[f]: d\n\x7b line: 1, command: f \x7d" ∧
    createMessageErrorText "f" "d" (some 1)
        = "Error[f]: <code>d\n\x7b \nline : 1, \ncommand : f \n\x7d</code>" := by
  decide

/-- Claim C8 (amended): for every function name, detail text and optional
line number, the inline diagnostic begins with `Error[<functionName>]: `,
contains the details, and contains a brace block giving the line number and
the function name as the command — concretely the block
`{ \nline : <n>, \ncommand : <functionName> \n}` — with the body after
`Error[<functionName>]: ` wrapped in HTML `<code>` tags. -/
theorem createMessageErrorText_shape (func details : String) (line : Option Nat) :
    (∃ rest, createMessageErrorText func details line
        = "Error[" ++ func ++ "]: " ++ rest) ∧
    (∃ a b, createMessageErrorText func details line = a ++ details ++ b) ∧
    (∃ a b, createMessageErrorText func details line
        = a ++ ("\x7b \nline : " ++ lineToString line ++ ", \ncommand : " ++ func
            ++ " \n\x7d") ++ b) := by
  refine ⟨⟨"<code>" ++ details ++ "\n" ++ "\x7b \nline : " ++ lineToString line
      ++ ", \ncommand : " ++ func ++ " \n\x7d" ++ "</code>", ?_⟩,
    ⟨"Error[" ++ func ++ "]: " ++ "<code>",
      "\n" ++ "\x7b \nline : " ++ lineToString line ++ ", \ncommand : " ++ func
        ++ " \n\x7d" ++ "</code>", ?_⟩,
    ⟨"Error[" ++ func ++ "]: " ++ "<code>" ++ details ++ "\n", "</code>", ?_⟩⟩ <;>
  · have hm1 : ∀ x : String, "]: " ++ ("<code>" ++ x) = "]: <code>" ++ x := fun x => by
      rw [← strAppendAssoc]; rfl
    have hm2 : ∀ x : String, "\n" ++ ("\x7b \nline : " ++ x) = "\n\x7b \nline : " ++ x :=
      fun x => by rw [← strAppendAssoc]; rfl
    simp [createMessageErrorText, strAppendAssoc, hm1, hm2]

theorem removeFunctionGo_partial (pre : List String) (r : Registry) (m : String)
    (rest : List String) (hnodup : (keysOf r).Nodup)
    (hpre : ∀ p ∈ pre, mapHas r (jsToLower p) = true)
    (hdis : pre.Pairwise (fun a b => jsToLower a ≠ jsToLower b))
    (hm : mapHas r (jsToLower m) = false) :
    (removeFunctionGo r (pre ++ m :: rest)).2
        = some (unknownFunctionRemoveError (jsToLower m)) ∧
    ∀ p ∈ pre, mapHas (removeFunctionGo r (pre ++ m :: rest)).1 (jsToLower p) = false := by
  induction pre generalizing r with
  | nil =>
    simp only [List.nil_append]
    refine ⟨?_, by simp⟩
    simp [removeFunctionGo, mapDelete_of_not_has r (jsToLower m) hm]
  | cons p pre' ih =>
    have hp : mapHas r (jsToLower p) = true := hpre p (by simp)
    have hdel2 : (mapDelete r (jsToLower p)).2 = true := mapDelete_snd_of_has _ _ hp
    have hnodup' : (keysOf (mapDelete r (jsToLower p)).1).Nodup :=
      nodup_keys_mapDelete _ _ hnodup
    have hpairs := List.pairwise_cons.1 hdis
    have hpre' : ∀ q ∈ pre', mapHas (mapDelete r (jsToLower p)).1 (jsToLower q) = true := by
      intro q hq
      exact mapHas_mapDelete_of_ne r (jsToLower q) (jsToLower p)
        (hpre q (by simp [hq])) (Ne.symm (hpairs.1 q hq))
    have hm' : mapHas (mapDelete r (jsToLower p)).1 (jsToLower m) = false :=
      mapHas_mapDelete_of_not_has r (jsToLower m) (jsToLower p) hm
    have hih := ih (mapDelete r (jsToLower p)).1 hnodup' hpre' hpairs.2 hm'
    have hgo : removeFunctionGo r ((p :: pre') ++ m :: rest)
        = removeFunctionGo (mapDelete r (jsToLower p)).1 (pre' ++ m :: rest) := by
      simp [removeFunctionGo, hdel2]
    rw [hgo]
    refine ⟨hih.1, ?_⟩
    intro q hq
    rcases List.mem_cons.1 hq with rfl | hq'
    · exact mapHas_removeFunctionGo_of_not_has _ _ _
        (mapHas_mapDelete_self_of_nodup r (jsToLower q) hnodup)
    · exact hih.2 q hq'

/-- Claim C9: removal of a list of names is not atomic.  For every registry
with duplicate-free keys and every list of names of the shape
`pre ++ missing :: rest` where every name in `pre` is registered under its
lower-cased form (the lowered forms pairwise distinct) and the lower-cased
`missing` is not registered, removeFunction throws the UnknownFunction
AoijsError for the first missing name, yet every name in `pre` has already
been deleted from the registry when the error is raised; in particular when
`pre` is non-empty the failed call does not leave the registry unchanged. -/
theorem removeFunction_not_atomic (r : Registry) (pre : List String) (m : String)
    (rest : List String) (hnodup : (keysOf r).Nodup)
    (hpre : ∀ p ∈ pre, mapHas r (jsToLower p) = true)
    (hdis : pre.Pairwise (fun a b => jsToLower a ≠ jsToLower b))
    (hm : mapHas r (jsToLower m) = false) :
    (removeFunction r (pre ++ m :: rest)).2
        = some (unknownFunctionRemoveError (jsToLower m)) ∧
    (∀ p ∈ pre, mapHas (removeFunction r (pre ++ m :: rest)).1 (jsToLower p) = false) ∧
    (pre ≠ [] → (removeFunction r (pre ++ m :: rest)).1 ≠ r) := by
  have hrw : removeFunction r (pre ++ m :: rest) = removeFunctionGo r (pre ++ m :: rest) := by
    simp [removeFunction]
  have hgo := removeFunctionGo_partial pre r m rest hnodup hpre hdis hm
  rw [hrw]
  refine ⟨hgo.1, hgo.2, ?_⟩
  intro hne heq
  cases pre with
  | nil => exact hne rfl
  | cons p pre' =>
    have h1 := hgo.2 p (by simp)
    rw [heq] at h1
    rw [hpre p (by simp)] at h1
    cases h1

/-- Witness for C9: removing ["a", "c"] from a registry holding "a" and "b"
throws the UnknownFunction error for "c", but "a" is already gone and the
registry left behind differs from the original. -/
theorem removeFunction_not_atomic_witness :
    (removeFunction [("a", fooPlain), ("b", barPlain)] (["a"] ++ "c" :: [])).2
        = some (unknownFunctionRemoveError (jsToLower "c")) ∧
    (∀ p ∈ ["a"], mapHas (removeFunction [("a", fooPlain), ("b", barPlain)]
        (["a"] ++ "c" :: [])).1 (jsToLower p) = false) ∧
    (["a"] ≠ ([] : List String) →
      (removeFunction [("a", fooPlain), ("b", barPlain)] (["a"] ++ "c" :: [])).1
        ≠ [("a", fooPlain), ("b", barPlain)]) :=
  removeFunction_not_atomic [("a", fooPlain), ("b", barPlain)] ["a"] "c" []
    (by decide) (by decide) (by decide) (by decide)

end Aoi
